import Mathlib

/-!
# Verification of the wtransport-playground echo service

A shallow embedding of the application logic of the repository:

* `src/src/main.rs` — the WebTransport echo server: `handle_connection`
  races stream accepts against datagram receives, spawns a per-stream echo
  task, and echoes datagrams with a fixed text prefix.
* `src/wasm-client/src/lib.rs` — the browser client: global
  `ConnectionState` (an optional session handle and an optional send-stream
  handle), `connect_to_server`, `send_message_stream`,
  `send_message_datagram`, `disconnect`, and the helper `hex_to_bytes`.

Rust byte buffers (`&[u8]`, `Vec<u8>`, `Bytes`) are embedded as `List Nat`
(each entry a byte value), and Rust `String`s as `List Nat` of Unicode
scalar values (a Rust `String` is exactly a sequence of `char`s, i.e. of
Unicode scalar values).  `String.from_utf8_lossy` is embedded as
`utf8Lossy`, following the byte-range analysis of Rust's
`core::str::run_utf8_validation` (maximal-subpart replacement, one
U+FFFD per invalid chunk).  I/O outcomes that the environment decides
(read results, write successes, datagram losses) are passed in explicitly
as event lists or boolean flags, and each handler is a pure function from
those events to the writes, logs and state transitions it performs.
-/

/-! ## UTF-8: lossy decoding, strict decoding, encoding

`utf8Lossy` embeds Rust's `String::from_utf8_lossy` (used at
`main.rs:71`, `main.rs:104`, `lib.rs:82` and `lib.rs:107`): bytes are
decoded left to right; a well-formed sequence yields its scalar value, and
each maximal subpart of an ill-formed sequence yields one replacement
character U+FFFD.  The resume points after an error follow Rust's
`run_utf8_validation` error lengths: an invalid lead byte or an invalid
first continuation consumes one byte (the lead), an invalid later
continuation consumes the bytes before it, and an incomplete sequence at
the end of the input consumes the rest. -/

/-- The Unicode replacement character U+FFFD, as a scalar value. -/
def replacement : Nat := 0xFFFD

/-- Is `c` a UTF-8 continuation byte (`0x80..=0xBF`)? -/
def isUtf8Cont (c : Nat) : Bool := decide (0x80 ≤ c) && decide (c ≤ 0xBF)

/-- Allowed first continuation byte after a three-byte lead `b`
(`0xE0..=0xEF`), per `run_utf8_validation`: `0xE0` needs `0xA0..=0xBF`,
`0xED` needs `0x80..=0x9F` (excluding surrogates), the rest `0x80..=0xBF`. -/
def cont3First (b c1 : Nat) : Bool :=
  if b = 0xE0 then decide (0xA0 ≤ c1) && decide (c1 ≤ 0xBF)
  else if b = 0xED then decide (0x80 ≤ c1) && decide (c1 ≤ 0x9F)
  else isUtf8Cont c1

/-- Allowed first continuation byte after a four-byte lead `b`
(`0xF0..=0xF4`): `0xF0` needs `0x90..=0xBF`, `0xF4` needs `0x80..=0x8F`
(capping at U+10FFFF), the rest `0x80..=0xBF`. -/
def cont4First (b c1 : Nat) : Bool :=
  if b = 0xF0 then decide (0x90 ≤ c1) && decide (c1 ≤ 0xBF)
  else if b = 0xF4 then decide (0x80 ≤ c1) && decide (c1 ≤ 0x8F)
  else isUtf8Cont c1

/-- Lossy UTF-8 decoding of a byte list into a list of Unicode scalar
values: `String.from_utf8_lossy`. -/
def utf8Lossy : List Nat → List Nat
  | [] => []
  | b :: rest =>
    if b < 0x80 then b :: utf8Lossy rest
    else if 0xC2 ≤ b ∧ b ≤ 0xDF then
      match h1 : rest with
      | [] => [replacement]
      | c1 :: r1 =>
        if isUtf8Cont c1 then
          ((b - 0xC0) * 64 + (c1 - 0x80)) :: utf8Lossy r1
        else replacement :: utf8Lossy rest
    else if 0xE0 ≤ b ∧ b ≤ 0xEF then
      match h1 : rest with
      | [] => [replacement]
      | c1 :: r1 =>
        if cont3First b c1 then
          match h2 : r1 with
          | [] => [replacement]
          | c2 :: r2 =>
            if isUtf8Cont c2 then
              ((b - 0xE0) * 4096 + (c1 - 0x80) * 64 + (c2 - 0x80)) :: utf8Lossy r2
            else replacement :: utf8Lossy r1
        else replacement :: utf8Lossy rest
    else if 0xF0 ≤ b ∧ b ≤ 0xF4 then
      match h1 : rest with
      | [] => [replacement]
      | c1 :: r1 =>
        if cont4First b c1 then
          match h2 : r1 with
          | [] => [replacement]
          | c2 :: r2 =>
            if isUtf8Cont c2 then
              match h3 : r2 with
              | [] => [replacement]
              | c3 :: r3 =>
                if isUtf8Cont c3 then
                  ((b - 0xF0) * 262144 + (c1 - 0x80) * 4096 +
                    (c2 - 0x80) * 64 + (c3 - 0x80)) :: utf8Lossy r3
                else replacement :: utf8Lossy r2
            else replacement :: utf8Lossy r1
        else replacement :: utf8Lossy rest
    else replacement :: utf8Lossy rest
termination_by l => l.length
decreasing_by all_goals simp_all <;> omega

/-- Strict UTF-8 decoding (`std::str::from_utf8` semantics): `some` of the
scalar values when the whole input is well-formed UTF-8, `none` otherwise. -/
def utf8DecodeStrict : List Nat → Option (List Nat)
  | [] => some []
  | b :: rest =>
    if b < 0x80 then (utf8DecodeStrict rest).map (b :: ·)
    else if 0xC2 ≤ b ∧ b ≤ 0xDF then
      match h1 : rest with
      | [] => none
      | c1 :: r1 =>
        if isUtf8Cont c1 then
          (utf8DecodeStrict r1).map (((b - 0xC0) * 64 + (c1 - 0x80)) :: ·)
        else none
    else if 0xE0 ≤ b ∧ b ≤ 0xEF then
      match h1 : rest with
      | [] => none
      | c1 :: r1 =>
        if cont3First b c1 then
          match h2 : r1 with
          | [] => none
          | c2 :: r2 =>
            if isUtf8Cont c2 then
              (utf8DecodeStrict r2).map
                (((b - 0xE0) * 4096 + (c1 - 0x80) * 64 + (c2 - 0x80)) :: ·)
            else none
          else none
    else if 0xF0 ≤ b ∧ b ≤ 0xF4 then
      match h1 : rest with
      | [] => none
      | c1 :: r1 =>
        if cont4First b c1 then
          match h2 : r1 with
          | [] => none
          | c2 :: r2 =>
            if isUtf8Cont c2 then
              match h3 : r2 with
              | [] => none
              | c3 :: r3 =>
                if isUtf8Cont c3 then
                  (utf8DecodeStrict r3).map
                    (((b - 0xF0) * 262144 + (c1 - 0x80) * 4096 +
                      (c2 - 0x80) * 64 + (c3 - 0x80)) :: ·)
                else none
            else none
        else none
    else none
termination_by l => l.length
decreasing_by all_goals simp_all <;> omega

/-- UTF-8 encoding of one Unicode scalar value. -/
def encodeScalar (n : Nat) : List Nat :=
  if n < 0x80 then [n]
  else if n < 0x800 then [0xC0 + n / 64, 0x80 + n % 64]
  else if n < 0x10000 then
    [0xE0 + n / 4096, 0x80 + (n / 64) % 64, 0x80 + n % 64]
  else
    [0xF0 + n / 262144, 0x80 + (n / 4096) % 64, 0x80 + (n / 64) % 64, 0x80 + n % 64]

/-- UTF-8 encoding of a list of scalar values (Rust `str::as_bytes`). -/
def utf8Encode : List Nat → List Nat
  | [] => []
  | n :: rest => encodeScalar n ++ utf8Encode rest

/-- The scalar values of a Lean string literal, used to embed Rust string
literals. -/
def strScalars (s : String) : List Nat := s.data.map Char.toNat

/-! ### Branch-unfolding lemmas for the two decoders

One lemma per branch of `utf8Lossy` and `utf8DecodeStrict`, phrased with
the byte-range conditions as plain inequalities so later inductions can
rewrite with them. -/

theorem utf8Lossy_nil : utf8Lossy [] = [] := by rw [utf8Lossy.eq_def]

theorem utf8Lossy_ascii (b : Nat) (rest : List Nat) (hb : b < 128) :
    utf8Lossy (b :: rest) = b :: utf8Lossy rest := by
  rw [utf8Lossy.eq_def]; simp [hb]

theorem utf8Lossy_two_eof (b : Nat) (h1 : 194 ≤ b) (h2 : b ≤ 223) :
    utf8Lossy [b] = [replacement] := by
  have n1 : ¬ b < 128 := by omega
  rw [utf8Lossy.eq_def]; simp [n1, h1, h2]

theorem utf8Lossy_two_ok (b c1 : Nat) (r1 : List Nat) (h1 : 194 ≤ b) (h2 : b ≤ 223)
    (hc : isUtf8Cont c1 = true) :
    utf8Lossy (b :: c1 :: r1) = ((b - 192) * 64 + (c1 - 128)) :: utf8Lossy r1 := by
  have n1 : ¬ b < 128 := by omega
  rw [utf8Lossy.eq_def]; simp [n1, h1, h2, hc]

theorem utf8Lossy_two_bad (b c1 : Nat) (r1 : List Nat) (h1 : 194 ≤ b) (h2 : b ≤ 223)
    (hc : isUtf8Cont c1 = false) :
    utf8Lossy (b :: c1 :: r1) = replacement :: utf8Lossy (c1 :: r1) := by
  have n1 : ¬ b < 128 := by omega
  rw [utf8Lossy.eq_def]; simp [n1, h1, h2, hc]

theorem utf8Lossy_three_eof1 (b : Nat) (h1 : 224 ≤ b) (h2 : b ≤ 239) :
    utf8Lossy [b] = [replacement] := by
  have n1 : ¬ b < 128 := by omega
  have n2 : ¬ (194 ≤ b ∧ b ≤ 223) := by omega
  rw [utf8Lossy.eq_def]; simp [n1, n2, h1, h2]

theorem utf8Lossy_three_eof2 (b c1 : Nat) (h1 : 224 ≤ b) (h2 : b ≤ 239)
    (hc1 : cont3First b c1 = true) :
    utf8Lossy [b, c1] = [replacement] := by
  have n1 : ¬ b < 128 := by omega
  have n2 : ¬ (194 ≤ b ∧ b ≤ 223) := by omega
  rw [utf8Lossy.eq_def]; simp [n1, n2, h1, h2, hc1]

theorem utf8Lossy_three_ok (b c1 c2 : Nat) (r2 : List Nat) (h1 : 224 ≤ b) (h2 : b ≤ 239)
    (hc1 : cont3First b c1 = true) (hc2 : isUtf8Cont c2 = true) :
    utf8Lossy (b :: c1 :: c2 :: r2)
      = ((b - 224) * 4096 + (c1 - 128) * 64 + (c2 - 128)) :: utf8Lossy r2 := by
  have n1 : ¬ b < 128 := by omega
  have n2 : ¬ (194 ≤ b ∧ b ≤ 223) := by omega
  rw [utf8Lossy.eq_def]; simp [n1, n2, h1, h2, hc1, hc2]

theorem utf8Lossy_three_bad2 (b c1 c2 : Nat) (r2 : List Nat) (h1 : 224 ≤ b)
    (h2 : b ≤ 239) (hc1 : cont3First b c1 = true) (hc2 : isUtf8Cont c2 = false) :
    utf8Lossy (b :: c1 :: c2 :: r2) = replacement :: utf8Lossy (c2 :: r2) := by
  have n1 : ¬ b < 128 := by omega
  have n2 : ¬ (194 ≤ b ∧ b ≤ 223) := by omega
  rw [utf8Lossy.eq_def]; simp [n1, n2, h1, h2, hc1, hc2]

theorem utf8Lossy_three_bad1 (b c1 : Nat) (r1 : List Nat) (h1 : 224 ≤ b) (h2 : b ≤ 239)
    (hc1 : cont3First b c1 = false) :
    utf8Lossy (b :: c1 :: r1) = replacement :: utf8Lossy (c1 :: r1) := by
  have n1 : ¬ b < 128 := by omega
  have n2 : ¬ (194 ≤ b ∧ b ≤ 223) := by omega
  rw [utf8Lossy.eq_def]; simp [n1, n2, h1, h2, hc1]

theorem utf8Lossy_four_eof1 (b : Nat) (h1 : 240 ≤ b) (h2 : b ≤ 244) :
    utf8Lossy [b] = [replacement] := by
  have n1 : ¬ b < 128 := by omega
  have n2 : ¬ (194 ≤ b ∧ b ≤ 223) := by omega
  have n3 : ¬ (224 ≤ b ∧ b ≤ 239) := by omega
  rw [utf8Lossy.eq_def]; simp [n1, n2, n3, h1, h2]

theorem utf8Lossy_four_eof2 (b c1 : Nat) (h1 : 240 ≤ b) (h2 : b ≤ 244)
    (hc1 : cont4First b c1 = true) :
    utf8Lossy [b, c1] = [replacement] := by
  have n1 : ¬ b < 128 := by omega
  have n2 : ¬ (194 ≤ b ∧ b ≤ 223) := by omega
  have n3 : ¬ (224 ≤ b ∧ b ≤ 239) := by omega
  rw [utf8Lossy.eq_def]; simp [n1, n2, n3, h1, h2, hc1]

theorem utf8Lossy_four_eof3 (b c1 c2 : Nat) (h1 : 240 ≤ b) (h2 : b ≤ 244)
    (hc1 : cont4First b c1 = true) (hc2 : isUtf8Cont c2 = true) :
    utf8Lossy [b, c1, c2] = [replacement] := by
  have n1 : ¬ b < 128 := by omega
  have n2 : ¬ (194 ≤ b ∧ b ≤ 223) := by omega
  have n3 : ¬ (224 ≤ b ∧ b ≤ 239) := by omega
  rw [utf8Lossy.eq_def]; simp [n1, n2, n3, h1, h2, hc1, hc2]

theorem utf8Lossy_four_ok (b c1 c2 c3 : Nat) (r3 : List Nat) (h1 : 240 ≤ b)
    (h2 : b ≤ 244) (hc1 : cont4First b c1 = true) (hc2 : isUtf8Cont c2 = true)
    (hc3 : isUtf8Cont c3 = true) :
    utf8Lossy (b :: c1 :: c2 :: c3 :: r3)
      = ((b - 240) * 262144 + (c1 - 128) * 4096 + (c2 - 128) * 64 + (c3 - 128))
        :: utf8Lossy r3 := by
  have n1 : ¬ b < 128 := by omega
  have n2 : ¬ (194 ≤ b ∧ b ≤ 223) := by omega
  have n3 : ¬ (224 ≤ b ∧ b ≤ 239) := by omega
  rw [utf8Lossy.eq_def]; simp [n1, n2, n3, h1, h2, hc1, hc2, hc3]

theorem utf8Lossy_four_bad3 (b c1 c2 c3 : Nat) (r3 : List Nat) (h1 : 240 ≤ b)
    (h2 : b ≤ 244) (hc1 : cont4First b c1 = true) (hc2 : isUtf8Cont c2 = true)
    (hc3 : isUtf8Cont c3 = false) :
    utf8Lossy (b :: c1 :: c2 :: c3 :: r3) = replacement :: utf8Lossy (c3 :: r3) := by
  have n1 : ¬ b < 128 := by omega
  have n2 : ¬ (194 ≤ b ∧ b ≤ 223) := by omega
  have n3 : ¬ (224 ≤ b ∧ b ≤ 239) := by omega
  rw [utf8Lossy.eq_def]; simp [n1, n2, n3, h1, h2, hc1, hc2, hc3]

theorem utf8Lossy_four_bad2 (b c1 c2 : Nat) (r2 : List Nat) (h1 : 240 ≤ b)
    (h2 : b ≤ 244) (hc1 : cont4First b c1 = true) (hc2 : isUtf8Cont c2 = false) :
    utf8Lossy (b :: c1 :: c2 :: r2) = replacement :: utf8Lossy (c2 :: r2) := by
  have n1 : ¬ b < 128 := by omega
  have n2 : ¬ (194 ≤ b ∧ b ≤ 223) := by omega
  have n3 : ¬ (224 ≤ b ∧ b ≤ 239) := by omega
  rw [utf8Lossy.eq_def]; simp [n1, n2, n3, h1, h2, hc1, hc2]

theorem utf8Lossy_four_bad1 (b c1 : Nat) (r1 : List Nat) (h1 : 240 ≤ b) (h2 : b ≤ 244)
    (hc1 : cont4First b c1 = false) :
    utf8Lossy (b :: c1 :: r1) = replacement :: utf8Lossy (c1 :: r1) := by
  have n1 : ¬ b < 128 := by omega
  have n2 : ¬ (194 ≤ b ∧ b ≤ 223) := by omega
  have n3 : ¬ (224 ≤ b ∧ b ≤ 239) := by omega
  rw [utf8Lossy.eq_def]; simp [n1, n2, n3, h1, h2, hc1]

theorem utf8Lossy_badlead (b : Nat) (rest : List Nat) (hb : 128 ≤ b)
    (hx : b ≤ 193 ∨ 245 ≤ b) :
    utf8Lossy (b :: rest) = replacement :: utf8Lossy rest := by
  have n1 : ¬ b < 128 := by omega
  have n2 : ¬ (194 ≤ b ∧ b ≤ 223) := by omega
  have n3 : ¬ (224 ≤ b ∧ b ≤ 239) := by omega
  have n4 : ¬ (240 ≤ b ∧ b ≤ 244) := by omega
  rw [utf8Lossy.eq_def]; simp [n1, n2, n3, n4]

theorem utf8DecodeStrict_nil : utf8DecodeStrict [] = some [] := by
  rw [utf8DecodeStrict.eq_def]

theorem utf8DecodeStrict_ascii (b : Nat) (rest : List Nat) (hb : b < 128) :
    utf8DecodeStrict (b :: rest) = (utf8DecodeStrict rest).map (b :: ·) := by
  rw [utf8DecodeStrict.eq_def]; simp [hb]

theorem utf8DecodeStrict_two_eof (b : Nat) (h1 : 194 ≤ b) (h2 : b ≤ 223) :
    utf8DecodeStrict [b] = none := by
  have n1 : ¬ b < 128 := by omega
  rw [utf8DecodeStrict.eq_def]; simp [n1, h1, h2]

theorem utf8DecodeStrict_two_ok (b c1 : Nat) (r1 : List Nat) (h1 : 194 ≤ b)
    (h2 : b ≤ 223) (hc : isUtf8Cont c1 = true) :
    utf8DecodeStrict (b :: c1 :: r1)
      = (utf8DecodeStrict r1).map (((b - 192) * 64 + (c1 - 128)) :: ·) := by
  have n1 : ¬ b < 128 := by omega
  rw [utf8DecodeStrict.eq_def]; simp [n1, h1, h2, hc]

theorem utf8DecodeStrict_two_bad (b c1 : Nat) (r1 : List Nat) (h1 : 194 ≤ b)
    (h2 : b ≤ 223) (hc : isUtf8Cont c1 = false) :
    utf8DecodeStrict (b :: c1 :: r1) = none := by
  have n1 : ¬ b < 128 := by omega
  rw [utf8DecodeStrict.eq_def]; simp [n1, h1, h2, hc]

theorem utf8DecodeStrict_three_eof1 (b : Nat) (h1 : 224 ≤ b) (h2 : b ≤ 239) :
    utf8DecodeStrict [b] = none := by
  have n1 : ¬ b < 128 := by omega
  have n2 : ¬ (194 ≤ b ∧ b ≤ 223) := by omega
  rw [utf8DecodeStrict.eq_def]; simp [n1, n2, h1, h2]

theorem utf8DecodeStrict_three_eof2 (b c1 : Nat) (h1 : 224 ≤ b) (h2 : b ≤ 239)
    (hc1 : cont3First b c1 = true) :
    utf8DecodeStrict [b, c1] = none := by
  have n1 : ¬ b < 128 := by omega
  have n2 : ¬ (194 ≤ b ∧ b ≤ 223) := by omega
  rw [utf8DecodeStrict.eq_def]; simp [n1, n2, h1, h2, hc1]

theorem utf8DecodeStrict_three_ok (b c1 c2 : Nat) (r2 : List Nat) (h1 : 224 ≤ b)
    (h2 : b ≤ 239) (hc1 : cont3First b c1 = true) (hc2 : isUtf8Cont c2 = true) :
    utf8DecodeStrict (b :: c1 :: c2 :: r2)
      = (utf8DecodeStrict r2).map
          (((b - 224) * 4096 + (c1 - 128) * 64 + (c2 - 128)) :: ·) := by
  have n1 : ¬ b < 128 := by omega
  have n2 : ¬ (194 ≤ b ∧ b ≤ 223) := by omega
  rw [utf8DecodeStrict.eq_def]; simp [n1, n2, h1, h2, hc1, hc2]

theorem utf8DecodeStrict_three_bad2 (b c1 c2 : Nat) (r2 : List Nat) (h1 : 224 ≤ b)
    (h2 : b ≤ 239) (hc1 : cont3First b c1 = true) (hc2 : isUtf8Cont c2 = false) :
    utf8DecodeStrict (b :: c1 :: c2 :: r2) = none := by
  have n1 : ¬ b < 128 := by omega
  have n2 : ¬ (194 ≤ b ∧ b ≤ 223) := by omega
  rw [utf8DecodeStrict.eq_def]; simp [n1, n2, h1, h2, hc1, hc2]

theorem utf8DecodeStrict_three_bad1 (b c1 : Nat) (r1 : List Nat) (h1 : 224 ≤ b)
    (h2 : b ≤ 239) (hc1 : cont3First b c1 = false) :
    utf8DecodeStrict (b :: c1 :: r1) = none := by
  have n1 : ¬ b < 128 := by omega
  have n2 : ¬ (194 ≤ b ∧ b ≤ 223) := by omega
  rw [utf8DecodeStrict.eq_def]; simp [n1, n2, h1, h2, hc1]

theorem utf8DecodeStrict_four_eof1 (b : Nat) (h1 : 240 ≤ b) (h2 : b ≤ 244) :
    utf8DecodeStrict [b] = none := by
  have n1 : ¬ b < 128 := by omega
  have n2 : ¬ (194 ≤ b ∧ b ≤ 223) := by omega
  have n3 : ¬ (224 ≤ b ∧ b ≤ 239) := by omega
  rw [utf8DecodeStrict.eq_def]; simp [n1, n2, n3, h1, h2]

theorem utf8DecodeStrict_four_eof2 (b c1 : Nat) (h1 : 240 ≤ b) (h2 : b ≤ 244)
    (hc1 : cont4First b c1 = true) :
    utf8DecodeStrict [b, c1] = none := by
  have n1 : ¬ b < 128 := by omega
  have n2 : ¬ (194 ≤ b ∧ b ≤ 223) := by omega
  have n3 : ¬ (224 ≤ b ∧ b ≤ 239) := by omega
  rw [utf8DecodeStrict.eq_def]; simp [n1, n2, n3, h1, h2, hc1]

theorem utf8DecodeStrict_four_eof3 (b c1 c2 : Nat) (h1 : 240 ≤ b) (h2 : b ≤ 244)
    (hc1 : cont4First b c1 = true) (hc2 : isUtf8Cont c2 = true) :
    utf8DecodeStrict [b, c1, c2] = none := by
  have n1 : ¬ b < 128 := by omega
  have n2 : ¬ (194 ≤ b ∧ b ≤ 223) := by omega
  have n3 : ¬ (224 ≤ b ∧ b ≤ 239) := by omega
  rw [utf8DecodeStrict.eq_def]; simp [n1, n2, n3, h1, h2, hc1, hc2]

theorem utf8DecodeStrict_four_ok (b c1 c2 c3 : Nat) (r3 : List Nat) (h1 : 240 ≤ b)
    (h2 : b ≤ 244) (hc1 : cont4First b c1 = true) (hc2 : isUtf8Cont c2 = true)
    (hc3 : isUtf8Cont c3 = true) :
    utf8DecodeStrict (b :: c1 :: c2 :: c3 :: r3)
      = (utf8DecodeStrict r3).map
          (((b - 240) * 262144 + (c1 - 128) * 4096 + (c2 - 128) * 64 + (c3 - 128))
            :: ·) := by
  have n1 : ¬ b < 128 := by omega
  have n2 : ¬ (194 ≤ b ∧ b ≤ 223) := by omega
  have n3 : ¬ (224 ≤ b ∧ b ≤ 239) := by omega
  rw [utf8DecodeStrict.eq_def]; simp [n1, n2, n3, h1, h2, hc1, hc2, hc3]

theorem utf8DecodeStrict_four_bad3 (b c1 c2 c3 : Nat) (r3 : List Nat) (h1 : 240 ≤ b)
    (h2 : b ≤ 244) (hc1 : cont4First b c1 = true) (hc2 : isUtf8Cont c2 = true)
    (hc3 : isUtf8Cont c3 = false) :
    utf8DecodeStrict (b :: c1 :: c2 :: c3 :: r3) = none := by
  have n1 : ¬ b < 128 := by omega
  have n2 : ¬ (194 ≤ b ∧ b ≤ 223) := by omega
  have n3 : ¬ (224 ≤ b ∧ b ≤ 239) := by omega
  rw [utf8DecodeStrict.eq_def]; simp [n1, n2, n3, h1, h2, hc1, hc2, hc3]

theorem utf8DecodeStrict_four_bad2 (b c1 c2 : Nat) (r2 : List Nat) (h1 : 240 ≤ b)
    (h2 : b ≤ 244) (hc1 : cont4First b c1 = true) (hc2 : isUtf8Cont c2 = false) :
    utf8DecodeStrict (b :: c1 :: c2 :: r2) = none := by
  have n1 : ¬ b < 128 := by omega
  have n2 : ¬ (194 ≤ b ∧ b ≤ 223) := by omega
  have n3 : ¬ (224 ≤ b ∧ b ≤ 239) := by omega
  rw [utf8DecodeStrict.eq_def]; simp [n1, n2, n3, h1, h2, hc1, hc2]

theorem utf8DecodeStrict_four_bad1 (b c1 : Nat) (r1 : List Nat) (h1 : 240 ≤ b)
    (h2 : b ≤ 244) (hc1 : cont4First b c1 = false) :
    utf8DecodeStrict (b :: c1 :: r1) = none := by
  have n1 : ¬ b < 128 := by omega
  have n2 : ¬ (194 ≤ b ∧ b ≤ 223) := by omega
  have n3 : ¬ (224 ≤ b ∧ b ≤ 239) := by omega
  rw [utf8DecodeStrict.eq_def]; simp [n1, n2, n3, h1, h2, hc1]

theorem utf8DecodeStrict_badlead (b : Nat) (rest : List Nat) (hb : 128 ≤ b)
    (hx : b ≤ 193 ∨ 245 ≤ b) :
    utf8DecodeStrict (b :: rest) = none := by
  have n1 : ¬ b < 128 := by omega
  have n2 : ¬ (194 ≤ b ∧ b ≤ 223) := by omega
  have n3 : ¬ (224 ≤ b ∧ b ≤ 239) := by omega
  have n4 : ¬ (240 ≤ b ∧ b ≤ 244) := by omega
  rw [utf8DecodeStrict.eq_def]; simp [n1, n2, n3, n4]

example : utf8Lossy (strScalars "hello") = strScalars "hello" := by
  simp [utf8Lossy, strScalars, isUtf8Cont, cont3First, cont4First]
example : utf8Lossy [0xFF] = [replacement] := by
  simp [utf8Lossy, isUtf8Cont, cont3First, cont4First]
example : utf8Lossy [0xC3, 0xA9] = [0xE9] := by
  simp [utf8Lossy, isUtf8Cont, cont3First, cont4First]
example : utf8Lossy [0xE1, 0x80, 0xFF] = [replacement, replacement] := by
  simp [utf8Lossy, isUtf8Cont, cont3First, cont4First]
example : utf8Lossy [0xE0, 0x80] = [replacement, replacement] := by
  simp [utf8Lossy, isUtf8Cont, cont3First, cont4First]
example : utf8Lossy [0xF0, 0x9F, 0x92, 0x96] = [0x1F496] := by
  simp [utf8Lossy, isUtf8Cont, cont3First, cont4First]
example : utf8Lossy [0xED, 0xA0, 0x80] = [replacement, replacement, replacement] := by
  simp [utf8Lossy, isUtf8Cont, cont3First, cont4First]
example : utf8DecodeStrict [0x68, 0xC3, 0xA9] = some [0x68, 0xE9] := by
  simp [utf8DecodeStrict, isUtf8Cont, cont3First, cont4First]
example : utf8DecodeStrict [0xFF] = none := by
  simp [utf8DecodeStrict, isUtf8Cont, cont3First, cont4First]
example : utf8Encode [0x1F496] = [0xF0, 0x9F, 0x92, 0x96] := by decide
example : utf8Encode (strScalars "hi") = strScalars "hi" := by decide

/-! ### Properties of the lossy decoder

`lossy_agrees_strict`: on well-formed UTF-8 input the lossy decoder
returns exactly the strict decoding (nothing is replaced).
`lossy_replacement_of_invalid`: on ill-formed input at least one
replacement character appears in the output.
`utf8Lossy_valid_scalars`: every output entry is a valid Unicode scalar
value (below the surrogate range or above it and below 0x110000), so the
lossy decode always yields a well-formed string and never fails. -/

theorem isUtf8Cont_bounds {c : Nat} (h : isUtf8Cont c = true) : 128 ≤ c ∧ c ≤ 191 := by
  simpa [isUtf8Cont] using h

theorem cont3First_bounds {b c1 : Nat} (h : cont3First b c1 = true) :
    128 ≤ c1 ∧ c1 ≤ 191 ∧ (b = 224 → 160 ≤ c1) ∧ (b = 237 → c1 ≤ 159) := by
  by_cases hb : b = 224
  · subst hb; simp [cont3First] at h; omega
  · by_cases hb' : b = 237
    · subst hb'; simp [cont3First] at h; omega
    · simp [cont3First, hb, hb', isUtf8Cont] at h; omega

theorem cont4First_bounds {b c1 : Nat} (h : cont4First b c1 = true) :
    128 ≤ c1 ∧ c1 ≤ 191 ∧ (b = 240 → 144 ≤ c1) ∧ (b = 244 → c1 ≤ 143) := by
  by_cases hb : b = 240
  · subst hb; simp [cont4First] at h; omega
  · by_cases hb' : b = 244
    · subst hb'; simp [cont4First] at h; omega
    · simp [cont4First, hb, hb', isUtf8Cont] at h; omega

theorem replacement_valid :
    replacement < 55296 ∨ (57344 ≤ replacement ∧ replacement < 1114112) := by
  simp [replacement]

theorem lossy_agrees_strict (bs : List Nat) :
    ∀ cs, utf8DecodeStrict bs = some cs → utf8Lossy bs = cs := by
  induction bs using utf8Lossy.induct with
  | case1 =>
    intro cs h
    rw [utf8DecodeStrict_nil] at h
    rw [utf8Lossy_nil]
    exact Option.some.inj h
  | case2 b rest hb ih =>
    intro cs h
    rw [utf8DecodeStrict_ascii b rest hb] at h
    obtain ⟨a, ha, hfa⟩ := Option.map_eq_some'.mp h
    subst hfa
    simp [utf8Lossy_ascii b rest hb, ih a ha]
  | case3 b n1 hr =>
    intro cs h
    rw [utf8DecodeStrict_two_eof b hr.1 hr.2] at h
    exact absurd h (by simp)
  | case4 b n1 hr c1 r1 hc ih =>
    intro cs h
    rw [utf8DecodeStrict_two_ok b c1 r1 hr.1 hr.2 hc] at h
    obtain ⟨a, ha, hfa⟩ := Option.map_eq_some'.mp h
    subst hfa
    simp [utf8Lossy_two_ok b c1 r1 hr.1 hr.2 hc, ih a ha]
  | case5 b n1 hr c1 r1 hc ih =>
    intro cs h
    simp only [Bool.not_eq_true] at hc
    rw [utf8DecodeStrict_two_bad b c1 r1 hr.1 hr.2 hc] at h
    exact absurd h (by simp)
  | case6 b n1 n2 hr =>
    intro cs h
    rw [utf8DecodeStrict_three_eof1 b hr.1 hr.2] at h
    exact absurd h (by simp)
  | case7 b n1 n2 hr c1 hc1 heq =>
    intro cs h
    rw [utf8DecodeStrict_three_eof2 b c1 hr.1 hr.2 hc1] at h
    exact absurd h (by simp)
  | case8 b n1 n2 hr c1 hc1 c2 r2 hc2 heq ih =>
    intro cs h
    rw [utf8DecodeStrict_three_ok b c1 c2 r2 hr.1 hr.2 hc1 hc2] at h
    obtain ⟨a, ha, hfa⟩ := Option.map_eq_some'.mp h
    subst hfa
    simp [utf8Lossy_three_ok b c1 c2 r2 hr.1 hr.2 hc1 hc2, ih a ha]
  | case9 b n1 n2 hr c1 hc1 c2 r2 hc2 heq ih =>
    intro cs h
    simp only [Bool.not_eq_true] at hc2
    rw [utf8DecodeStrict_three_bad2 b c1 c2 r2 hr.1 hr.2 hc1 hc2] at h
    exact absurd h (by simp)
  | case10 b n1 n2 hr c1 r1 hc1 ih =>
    intro cs h
    simp only [Bool.not_eq_true] at hc1
    rw [utf8DecodeStrict_three_bad1 b c1 r1 hr.1 hr.2 hc1] at h
    exact absurd h (by simp)
  | case11 b n1 n2 n3 hr =>
    intro cs h
    rw [utf8DecodeStrict_four_eof1 b hr.1 hr.2] at h
    exact absurd h (by simp)
  | case12 b n1 n2 n3 hr c1 hc1 heq =>
    intro cs h
    rw [utf8DecodeStrict_four_eof2 b c1 hr.1 hr.2 hc1] at h
    exact absurd h (by simp)
  | case13 b n1 n2 n3 hr c1 hc1 c2 hc2 heq1 heq2 heq3 =>
    intro cs h
    rw [utf8DecodeStrict_four_eof3 b c1 c2 hr.1 hr.2 hc1 hc2] at h
    exact absurd h (by simp)
  | case14 b n1 n2 n3 hr c1 hc1 c2 hc2 c3 r3 hc3 heq1 heq2 heq3 ih =>
    intro cs h
    rw [utf8DecodeStrict_four_ok b c1 c2 c3 r3 hr.1 hr.2 hc1 hc2 hc3] at h
    obtain ⟨a, ha, hfa⟩ := Option.map_eq_some'.mp h
    subst hfa
    simp [utf8Lossy_four_ok b c1 c2 c3 r3 hr.1 hr.2 hc1 hc2 hc3, ih a ha]
  | case15 b n1 n2 n3 hr c1 hc1 c2 hc2 c3 r3 hc3 heq1 heq2 heq3 ih =>
    intro cs h
    simp only [Bool.not_eq_true] at hc3
    rw [utf8DecodeStrict_four_bad3 b c1 c2 c3 r3 hr.1 hr.2 hc1 hc2 hc3] at h
    exact absurd h (by simp)
  | case16 b n1 n2 n3 hr c1 hc1 c2 r2 hc2 heq ih =>
    intro cs h
    simp only [Bool.not_eq_true] at hc2
    rw [utf8DecodeStrict_four_bad2 b c1 c2 r2 hr.1 hr.2 hc1 hc2] at h
    exact absurd h (by simp)
  | case17 b n1 n2 n3 hr c1 r1 hc1 ih =>
    intro cs h
    simp only [Bool.not_eq_true] at hc1
    rw [utf8DecodeStrict_four_bad1 b c1 r1 hr.1 hr.2 hc1] at h
    exact absurd h (by simp)
  | case18 b rest n1 n2 n3 n4 ih =>
    intro cs h
    rw [utf8DecodeStrict_badlead b rest (by omega) (by omega)] at h
    exact absurd h (by simp)

theorem lossy_replacement_of_invalid (bs : List Nat) :
    utf8DecodeStrict bs = none → replacement ∈ utf8Lossy bs := by
  induction bs using utf8Lossy.induct with
  | case1 =>
    intro h
    rw [utf8DecodeStrict_nil] at h
    exact absurd h (by simp)
  | case2 b rest hb ih =>
    intro h
    rw [utf8DecodeStrict_ascii b rest hb] at h
    rw [utf8Lossy_ascii b rest hb]
    exact List.mem_cons_of_mem _ (ih (Option.map_eq_none'.mp h))
  | case3 b n1 hr =>
    intro h
    rw [utf8Lossy_two_eof b hr.1 hr.2]
    simp
  | case4 b n1 hr c1 r1 hc ih =>
    intro h
    rw [utf8DecodeStrict_two_ok b c1 r1 hr.1 hr.2 hc] at h
    rw [utf8Lossy_two_ok b c1 r1 hr.1 hr.2 hc]
    exact List.mem_cons_of_mem _ (ih (Option.map_eq_none'.mp h))
  | case5 b n1 hr c1 r1 hc ih =>
    intro h
    simp only [Bool.not_eq_true] at hc
    rw [utf8Lossy_two_bad b c1 r1 hr.1 hr.2 hc]
    exact List.mem_cons_self _ _
  | case6 b n1 n2 hr =>
    intro h
    rw [utf8Lossy_three_eof1 b hr.1 hr.2]
    simp
  | case7 b n1 n2 hr c1 hc1 heq =>
    intro h
    rw [utf8Lossy_three_eof2 b c1 hr.1 hr.2 hc1]
    simp
  | case8 b n1 n2 hr c1 hc1 c2 r2 hc2 heq ih =>
    intro h
    rw [utf8DecodeStrict_three_ok b c1 c2 r2 hr.1 hr.2 hc1 hc2] at h
    rw [utf8Lossy_three_ok b c1 c2 r2 hr.1 hr.2 hc1 hc2]
    exact List.mem_cons_of_mem _ (ih (Option.map_eq_none'.mp h))
  | case9 b n1 n2 hr c1 hc1 c2 r2 hc2 heq ih =>
    intro h
    simp only [Bool.not_eq_true] at hc2
    rw [utf8Lossy_three_bad2 b c1 c2 r2 hr.1 hr.2 hc1 hc2]
    exact List.mem_cons_self _ _
  | case10 b n1 n2 hr c1 r1 hc1 ih =>
    intro h
    simp only [Bool.not_eq_true] at hc1
    rw [utf8Lossy_three_bad1 b c1 r1 hr.1 hr.2 hc1]
    exact List.mem_cons_self _ _
  | case11 b n1 n2 n3 hr =>
    intro h
    rw [utf8Lossy_four_eof1 b hr.1 hr.2]
    simp
  | case12 b n1 n2 n3 hr c1 hc1 heq =>
    intro h
    rw [utf8Lossy_four_eof2 b c1 hr.1 hr.2 hc1]
    simp
  | case13 b n1 n2 n3 hr c1 hc1 c2 hc2 heq1 heq2 heq3 =>
    intro h
    rw [utf8Lossy_four_eof3 b c1 c2 hr.1 hr.2 hc1 hc2]
    simp
  | case14 b n1 n2 n3 hr c1 hc1 c2 hc2 c3 r3 hc3 heq1 heq2 heq3 ih =>
    intro h
    rw [utf8DecodeStrict_four_ok b c1 c2 c3 r3 hr.1 hr.2 hc1 hc2 hc3] at h
    rw [utf8Lossy_four_ok b c1 c2 c3 r3 hr.1 hr.2 hc1 hc2 hc3]
    exact List.mem_cons_of_mem _ (ih (Option.map_eq_none'.mp h))
  | case15 b n1 n2 n3 hr c1 hc1 c2 hc2 c3 r3 hc3 heq1 heq2 heq3 ih =>
    intro h
    simp only [Bool.not_eq_true] at hc3
    rw [utf8Lossy_four_bad3 b c1 c2 c3 r3 hr.1 hr.2 hc1 hc2 hc3]
    exact List.mem_cons_self _ _
  | case16 b n1 n2 n3 hr c1 hc1 c2 r2 hc2 heq ih =>
    intro h
    simp only [Bool.not_eq_true] at hc2
    rw [utf8Lossy_four_bad2 b c1 c2 r2 hr.1 hr.2 hc1 hc2]
    exact List.mem_cons_self _ _
  | case17 b n1 n2 n3 hr c1 r1 hc1 ih =>
    intro h
    simp only [Bool.not_eq_true] at hc1
    rw [utf8Lossy_four_bad1 b c1 r1 hr.1 hr.2 hc1]
    exact List.mem_cons_self _ _
  | case18 b rest n1 n2 n3 n4 ih =>
    intro h
    rw [utf8Lossy_badlead b rest (by omega) (by omega)]
    exact List.mem_cons_self _ _

set_option maxRecDepth 4000 in
theorem utf8Lossy_valid_scalars (bs : List Nat) :
    ∀ x ∈ utf8Lossy bs, x < 55296 ∨ (57344 ≤ x ∧ x < 1114112) := by
  induction bs using utf8Lossy.induct with
  | case1 => rw [utf8Lossy_nil]; simp
  | case2 b rest hb ih =>
    rw [utf8Lossy_ascii b rest hb]
    intro x hx
    rcases List.mem_cons.mp hx with rfl | hx'
    · omega
    · exact ih x hx'
  | case3 b n1 hr =>
    rw [utf8Lossy_two_eof b hr.1 hr.2]
    intro x hx
    rcases List.mem_singleton.mp hx with rfl
    exact replacement_valid
  | case4 b n1 hr c1 r1 hc ih =>
    rw [utf8Lossy_two_ok b c1 r1 hr.1 hr.2 hc]
    intro x hx
    rcases List.mem_cons.mp hx with rfl | hx'
    · obtain ⟨hx1, hx2⟩ := isUtf8Cont_bounds hc
      omega
    · exact ih x hx'
  | case5 b n1 hr c1 r1 hc ih =>
    simp only [Bool.not_eq_true] at hc
    rw [utf8Lossy_two_bad b c1 r1 hr.1 hr.2 hc]
    intro x hx
    rcases List.mem_cons.mp hx with rfl | hx'
    · exact replacement_valid
    · exact ih x hx'
  | case6 b n1 n2 hr =>
    rw [utf8Lossy_three_eof1 b hr.1 hr.2]
    intro x hx
    rcases List.mem_singleton.mp hx with rfl
    exact replacement_valid
  | case7 b n1 n2 hr c1 hc1 heq =>
    rw [utf8Lossy_three_eof2 b c1 hr.1 hr.2 hc1]
    intro x hx
    rcases List.mem_singleton.mp hx with rfl
    exact replacement_valid
  | case8 b n1 n2 hr c1 hc1 c2 r2 hc2 heq ih =>
    rw [utf8Lossy_three_ok b c1 c2 r2 hr.1 hr.2 hc1 hc2]
    intro x hx
    rcases List.mem_cons.mp hx with rfl | hx'
    · obtain ⟨ha1, ha2, ha3, ha4⟩ := cont3First_bounds hc1
      obtain ⟨hb1, hb2⟩ := isUtf8Cont_bounds hc2
      obtain ⟨hr1, hr2⟩ := hr
      omega
    · exact ih x hx'
  | case9 b n1 n2 hr c1 hc1 c2 r2 hc2 heq ih =>
    simp only [Bool.not_eq_true] at hc2
    rw [utf8Lossy_three_bad2 b c1 c2 r2 hr.1 hr.2 hc1 hc2]
    intro x hx
    rcases List.mem_cons.mp hx with rfl | hx'
    · exact replacement_valid
    · exact ih x hx'
  | case10 b n1 n2 hr c1 r1 hc1 ih =>
    simp only [Bool.not_eq_true] at hc1
    rw [utf8Lossy_three_bad1 b c1 r1 hr.1 hr.2 hc1]
    intro x hx
    rcases List.mem_cons.mp hx with rfl | hx'
    · exact replacement_valid
    · exact ih x hx'
  | case11 b n1 n2 n3 hr =>
    rw [utf8Lossy_four_eof1 b hr.1 hr.2]
    intro x hx
    rcases List.mem_singleton.mp hx with rfl
    exact replacement_valid
  | case12 b n1 n2 n3 hr c1 hc1 heq =>
    rw [utf8Lossy_four_eof2 b c1 hr.1 hr.2 hc1]
    intro x hx
    rcases List.mem_singleton.mp hx with rfl
    exact replacement_valid
  | case13 b n1 n2 n3 hr c1 hc1 c2 hc2 heq1 heq2 heq3 =>
    rw [utf8Lossy_four_eof3 b c1 c2 hr.1 hr.2 hc1 hc2]
    intro x hx
    rcases List.mem_singleton.mp hx with rfl
    exact replacement_valid
  | case14 b n1 n2 n3 hr c1 hc1 c2 hc2 c3 r3 hc3 heq1 heq2 heq3 ih =>
    rw [utf8Lossy_four_ok b c1 c2 c3 r3 hr.1 hr.2 hc1 hc2 hc3]
    intro x hx
    rcases List.mem_cons.mp hx with rfl | hx'
    · obtain ⟨ha1, ha2, ha3, ha4⟩ := cont4First_bounds hc1
      obtain ⟨hb1, hb2⟩ := isUtf8Cont_bounds hc2
      obtain ⟨hd1, hd2⟩ := isUtf8Cont_bounds hc3
      obtain ⟨hr1, hr2⟩ := hr
      omega
    · exact ih x hx'
  | case15 b n1 n2 n3 hr c1 hc1 c2 hc2 c3 r3 hc3 heq1 heq2 heq3 ih =>
    simp only [Bool.not_eq_true] at hc3
    rw [utf8Lossy_four_bad3 b c1 c2 c3 r3 hr.1 hr.2 hc1 hc2 hc3]
    intro x hx
    rcases List.mem_cons.mp hx with rfl | hx'
    · exact replacement_valid
    · exact ih x hx'
  | case16 b n1 n2 n3 hr c1 hc1 c2 r2 hc2 heq ih =>
    simp only [Bool.not_eq_true] at hc2
    rw [utf8Lossy_four_bad2 b c1 c2 r2 hr.1 hr.2 hc1 hc2]
    intro x hx
    rcases List.mem_cons.mp hx with rfl | hx'
    · exact replacement_valid
    · exact ih x hx'
  | case17 b n1 n2 n3 hr c1 r1 hc1 ih =>
    simp only [Bool.not_eq_true] at hc1
    rw [utf8Lossy_four_bad1 b c1 r1 hr.1 hr.2 hc1]
    intro x hx
    rcases List.mem_cons.mp hx with rfl | hx'
    · exact replacement_valid
    · exact ih x hx'
  | case18 b rest n1 n2 n3 n4 ih =>
    rw [utf8Lossy_badlead b rest (by omega) (by omega)]
    intro x hx
    rcases List.mem_cons.mp hx with rfl | hx'
    · exact replacement_valid
    · exact ih x hx'

/-! ## Server: `handle_connection` (src/src/main.rs, lines 54-121)

The connection handler is a `tokio::select!` loop racing stream accepts
against datagram receives; each accepted stream gets an independent echo
task.  Both loops are embedded as pure functions over the list of I/O
events the environment delivers, returning everything the loop emitted
(write payloads, reply datagrams, warnings) and the loop's status after
those events. -/

/-- The reply the per-stream echo task writes back for a chunk `S` read
from the stream (`main.rs:71-76`): the bytes of
`format!("Server echo: {}", String::from_utf8_lossy(&buffer[..n]))`. -/
def streamEchoResponse (S : List Nat) : List Nat :=
  utf8Encode (strScalars "Server echo: " ++ utf8Lossy S)

/-- The reply datagram payload for a received datagram `S`
(`main.rs:104-108`): the bytes of
`format!("Server datagram echo: {}", String::from_utf8_lossy(&data))`. -/
def datagramEchoResponse (S : List Nat) : List Nat :=
  utf8Encode (strScalars "Server datagram echo: " ++ utf8Lossy S)

/-- One iteration's input to the per-stream echo task: what `recv.read`
returned — a data chunk (`Ok(Some(n))`, together with whether the
subsequent `send.write_all` succeeds), end of stream (`Ok(None)`) or a
read error (`Err`). -/
inductive StreamEvent where
  | chunk (bytes : List Nat) (writeOk : Bool)
  | eofSignal
  | readFail
deriving DecidableEq

/-- Status of the per-stream echo task after consuming its events. -/
inductive StreamTerm where
  | running
  | finished
  | readError
  | writeError
deriving DecidableEq

/-- The per-stream echo task (`main.rs:65-91`) run over a list of read
events: the list of payloads passed to `send.write_all`, in order, and
the task's status.  A chunk is echoed and the loop continues unless the
write fails; `Ok(None)` breaks cleanly; `Err` breaks with the read error
logged. -/
def streamTaskRun : List StreamEvent → List (List Nat) × StreamTerm
  | [] => ([], .running)
  | .chunk bs writeOk :: rest =>
    if writeOk then
      (streamEchoResponse bs :: (streamTaskRun rest).1, (streamTaskRun rest).2)
    else ([streamEchoResponse bs], .writeError)
  | .eofSignal :: _ => ([], .finished)
  | .readFail :: _ => ([], .readError)

/-- Is the event a successful read whose echo write also succeeded — the
only case in which the echo task's loop keeps running? -/
def isOkChunk : StreamEvent → Bool
  | .chunk _ true => true
  | _ => false

/-- One firing of the `tokio::select!` in `handle_connection`
(`main.rs:57-119`): a bidirectional stream accepted (spawning an echo
task), a failed accept, a received datagram (with the success of the
reply `send_datagram`), or a failed datagram receive. -/
inductive ConnEvent where
  | streamOpened (id : Nat)
  | streamAcceptFail
  | datagramRecv (bytes : List Nat) (sendOk : Bool)
  | datagramRecvFail
deriving DecidableEq

/-- Status of the connection handler loop after consuming its events. -/
inductive HandlerTerm where
  | running
  | streamAcceptFailed
  | datagramRecvFailed
deriving DecidableEq

/-- Everything the connection handler loop did: stream ids it spawned
echo tasks for, payloads passed to `send_datagram` (in order), warnings
logged, and its status. -/
structure HandlerOutput where
  spawned : List Nat
  sentDatagrams : List (List Nat)
  warns : List String
  term : HandlerTerm
deriving DecidableEq

/-- `handle_connection`'s select loop (`main.rs:57-119`) over a list of
events.  A received datagram is always answered by exactly one
`send_datagram` call; if that call fails only a warning is logged and the
loop continues.  A failed stream accept or a failed datagram receive
breaks the loop. -/
def handleConnection : List ConnEvent → HandlerOutput
  | [] => ⟨[], [], [], .running⟩
  | .streamOpened id :: rest =>
    let o := handleConnection rest
    { o with spawned := id :: o.spawned }
  | .streamAcceptFail :: _ =>
    ⟨[], [], ["Failed to accept stream"], .streamAcceptFailed⟩
  | .datagramRecv bs sendOk :: rest =>
    let o := handleConnection rest
    { o with
      sentDatagrams := datagramEchoResponse bs :: o.sentDatagrams,
      warns := if sendOk then o.warns else "Failed to send datagram" :: o.warns }
  | .datagramRecvFail :: _ =>
    ⟨[], [], ["Error receiving datagram"], .datagramRecvFailed⟩

/-! ## Client (src/wasm-client/src/lib.rs)

The client's global `CONNECTION` state and the four exported operations.
Session and stream handles are abstracted as numeric identifiers; every
`add_message(text, kind)` call is recorded in a `log` list; error strings
are embedded as their fixed message text (the formatted detail of the
underlying library error is dropped). -/

/-- The thread-local `ConnectionState` (`lib.rs:11-27`): an optional
session handle and an optional send-stream handle. -/
structure ConnectionState where
  session : Option Nat
  send_stream : Option Nat
deriving DecidableEq

/-- The outcomes the environment decides during `connect_to_server`
(`lib.rs:36-136`): does the URL parse, does the client build, does the
connection attempt succeed, does `open_bi` succeed, and which handles are
produced on success. -/
structure ConnectEnv where
  urlOk : Bool
  buildOk : Bool
  connectOk : Bool
  openOk : Bool
  sessionId : Nat
  streamId : Nat
deriving DecidableEq

/-- Result of `connect_to_server`: the returned `Result`, the
`CONNECTION` state after the call, and the `add_message` log. -/
structure ConnectOutcome where
  result : Except String Unit
  state : ConnectionState
  log : List (String × String)

/-- `connect_to_server` (`lib.rs:36-136`).  Failures at URL parsing and
client building return early before any connection; a failed connect or a
failed `open_bi` logs the error; only the full success path writes to
`CONNECTION`, storing both the session handle and the send-stream
handle. -/
def connect_to_server (st : ConnectionState) (env : ConnectEnv) : ConnectOutcome :=
  if ¬ env.urlOk then ⟨.error "Invalid URL", st, []⟩
  else if ¬ env.buildOk then ⟨.error "Client build error", st, []⟩
  else if ¬ env.connectOk then
    ⟨.error "Connection failed", st, [("Connection failed", "system")]⟩
  else if ¬ env.openOk then
    ⟨.error "Failed to open stream", st,
      [("Connected successfully!", "system"), ("Failed to open stream", "system")]⟩
  else
    ⟨.ok (), ⟨some env.sessionId, some env.streamId⟩,
      [("Connected successfully!", "system"),
        ("Stream opened, ready to send/receive", "system")]⟩

/-- Result of a send operation: the returned `Result`, the `CONNECTION`
state after the call, the `add_message` log, and the bytes handed to the
transport (`none` when nothing was sent). -/
structure SendOutcome where
  result : Except String Unit
  state : ConnectionState
  log : List (String × String)
  wrote : Option (List Nat)

/-- `send_message_stream` (`lib.rs:139-179`): clones the stored
send-stream handle out of `CONNECTION`; with no handle it reports
"Not connected", otherwise it writes the message's UTF-8 bytes and logs
the outcome.  The stored state is never written. -/
def send_message_stream (st : ConnectionState) (message : String)
    (writeOk : Bool) : SendOutcome :=
  match st.send_stream with
  | some _ =>
    if writeOk then
      ⟨.ok (), st, [(message, "sent")], some (utf8Encode (strScalars message))⟩
    else
      ⟨.error "Send error", st, [("Send error", "system")],
        some (utf8Encode (strScalars message))⟩
  | none =>
    ⟨.error "Not connected - no send stream available", st,
      [("Not connected - no send stream available", "system")], none⟩

/-- `send_message_datagram` (`lib.rs:182-218`): clones the stored session
handle; with no session it reports "Not connected", otherwise it sends
the message's UTF-8 bytes as one datagram and logs the outcome.  The
stored state is never written. -/
def send_message_datagram (st : ConnectionState) (message : String)
    (sendOk : Bool) : SendOutcome :=
  match st.session with
  | some _ =>
    if sendOk then
      ⟨.ok (), st, [("[Datagram] " ++ message, "sent")],
        some (utf8Encode (strScalars message))⟩
    else
      ⟨.error "Datagram send error", st, [("Datagram send error", "system")],
        some (utf8Encode (strScalars message))⟩
  | none =>
    ⟨.error "Not connected - no session available", st,
      [("Not connected - no session available", "system")], none⟩

/-- Result of `disconnect`: the state after the call, the
`session.close(code, reason)` call made (if any) as
`(handle, code, reason)`, and the `add_message` log. -/
structure DisconnectOutcome where
  state : ConnectionState
  closed : Option (Nat × Nat × String)
  log : List (String × String)
deriving DecidableEq

/-- `disconnect` (`lib.rs:221-241`): sets the stored send stream to
`None`, takes the stored session out (leaving `None`), closes it with
code 0 and the fixed reason if one was stored, and always logs the
"Disconnected" system notice.  The function returns `()`: there is no
error path. -/
def disconnect (st : ConnectionState) : DisconnectOutcome :=
  let st1 : ConnectionState := { st with send_stream := none }
  let taken := st1.session
  let st2 : ConnectionState := { st1 with session := none }
  { state := st2
    closed :=
      match taken with
      | some s => some (s, 0, "User requested disconnect")
      | none => none
    log := [("Disconnected", "system")] }

/-- The four exported client operations, as state transformers on the
stored `CONNECTION` state. -/
inductive ClientOp where
  | connectOp (env : ConnectEnv)
  | disconnectOp
  | sendStreamOp (message : String) (writeOk : Bool)
  | sendDatagramOp (message : String) (sendOk : Bool)

/-- The effect of one client operation on the stored state. -/
def clientStep : ClientOp → ConnectionState → ConnectionState
  | .connectOp env, st => (connect_to_server st env).state
  | .disconnectOp, st => (disconnect st).state
  | .sendStreamOp m ok, st => (send_message_stream st m ok).state
  | .sendDatagramOp m ok, st => (send_message_datagram st m ok).state

/-- How many session handles the state stores (0 or 1 by construction). -/
def sessionHandleCount (st : ConnectionState) : Nat :=
  match st.session with
  | some _ => 1
  | none => 0

/-- How many send-stream handles the state stores (0 or 1 by
construction). -/
def sendStreamHandleCount (st : ConnectionState) : Nat :=
  match st.send_stream with
  | some _ => 1
  | none => 0

/-! ## `hex_to_bytes` (src/wasm-client/src/lib.rs, lines 243-248)

`hex_to_bytes` walks the string two characters at a time and parses each
slice with `u8::from_str_radix(_, 16).unwrap()`.  It panics when the
input length is odd (the final two-byte slice runs past the end) or when
a slice does not parse; the `Option` result embeds the panic as `none`.
The pinned certificate fingerprint it is applied to is ASCII, so the
input is embedded as a list of characters. -/

/-- Rust `char::to_digit(16)`. -/
def hexDigit? (c : Char) : Option Nat :=
  if '0' ≤ c ∧ c ≤ '9' then some (c.toNat - '0'.toNat)
  else if 'a' ≤ c ∧ c ≤ 'f' then some (c.toNat - 'a'.toNat + 10)
  else if 'A' ≤ c ∧ c ≤ 'F' then some (c.toNat - 'A'.toNat + 10)
  else none

/-- `u8::from_str_radix` at radix 16 on a two-character slice: an
optional leading sign followed by at least one digit, accumulated in
`u8`.  `+d` parses to `d`; `-d` only parses when the value is zero
(anything else underflows); otherwise both characters must be hex
digits.  `none` embeds the `Err` that `hex_to_bytes` `unwrap`s into a
panic. -/
def u8FromStrRadix16 (c1 c2 : Char) : Option Nat :=
  if c1 = '+' then hexDigit? c2
  else if c1 = '-' then
    match hexDigit? c2 with
    | some 0 => some 0
    | _ => none
  else
    match hexDigit? c1, hexDigit? c2 with
    | some d1, some d2 => some (d1 * 16 + d2)
    | _, _ => none

/-- `hex_to_bytes` (`lib.rs:243-248`): `some` of the parsed bytes, or
`none` where the Rust function panics (odd length, or a slice that does
not parse). -/
def hex_to_bytes : List Char → Option (List Nat)
  | [] => some []
  | [_] => none
  | c1 :: c2 :: rest =>
    match u8FromStrRadix16 c1 c2 with
    | some b => (hex_to_bytes rest).map (b :: ·)
    | none => none

/-- The precondition under which `hex_to_bytes` is total: even length and
every two-character slice accepted by `u8::from_str_radix(_, 16)`. -/
def hexValid : List Char → Bool
  | [] => true
  | [_] => false
  | c1 :: c2 :: rest => (u8FromStrRadix16 c1 c2).isSome && hexValid rest

/-- The pinned certificate fingerprint (`lib.rs:45`), 64 hex characters. -/
def certHashHex : List Char :=
  "dbecff3c052db73b98936dc11ebce78bafe3d70044243835ed221f091ee0fea7".toList

theorem hex_to_bytes_total (hex : List Char) (h : hexValid hex = true) :
    ∃ bs, hex_to_bytes hex = some bs ∧ 2 * bs.length = hex.length := by
  induction hex using hexValid.induct with
  | case1 => exact ⟨[], rfl, rfl⟩
  | case2 c => simp [hexValid] at h
  | case3 c1 c2 rest ih =>
    rw [hexValid] at h
    obtain ⟨hp, hrest⟩ := (Bool.and_eq_true _ _).mp h
    obtain ⟨b, hb⟩ := Option.isSome_iff_exists.mp hp
    obtain ⟨bs, hbs, hlen⟩ := ih hrest
    refine ⟨b :: bs, ?_, ?_⟩
    · rw [hex_to_bytes, hb, hbs]; rfl
    · simp [List.length_cons]; omega

theorem hex_to_bytes_panic (hex : List Char) (h : hexValid hex = false) :
    hex_to_bytes hex = none := by
  induction hex using hexValid.induct with
  | case1 => simp [hexValid] at h
  | case2 c => rfl
  | case3 c1 c2 rest ih =>
    rw [hexValid] at h
    rw [hex_to_bytes]
    rcases hp : u8FromStrRadix16 c1 c2 with _ | b
    · rfl
    · rw [hp] at h
      simp at h
      rw [ih h]
      rfl

/-! ## The claims -/

/-- C1: for every byte sequence `S` with `1 ≤ |S| ≤ 1024` delivered by a
single successful stream read in the server's per-stream echo task, the
task's next write on the stream's send half is exactly the bytes of the
string `"Server echo: "` concatenated with the lossy UTF-8 decoding of
`S` — whatever the write's own outcome and whatever events follow. -/
theorem c1_stream_echo_bytes (S : List Nat) (writeOk : Bool)
    (rest : List StreamEvent) (h1 : 1 ≤ S.length) (h2 : S.length ≤ 1024)
    (hb : S.all (fun b => decide (b < 256)) = true) :
    (streamTaskRun (StreamEvent.chunk S writeOk :: rest)).1.head?
      = some (utf8Encode (strScalars "Server echo: " ++ utf8Lossy S)) := by
  cases writeOk <;> simp [streamTaskRun, streamEchoResponse]

theorem c1_witness :
    (streamTaskRun (StreamEvent.chunk [104, 101, 108, 108, 111] true :: [])).1.head?
      = some (utf8Encode
          (strScalars "Server echo: " ++ utf8Lossy [104, 101, 108, 108, 111])) :=
  c1_stream_echo_bytes [104, 101, 108, 108, 111] true [] (by decide) (by decide)
    (by decide)

/-- C2: every datagram payload `S` the connection handler receives is
answered by exactly one reply datagram sent on the same session, whose
payload is exactly the bytes of `"Server datagram echo: "` concatenated
with the lossy UTF-8 decoding of `S`; the remaining events contribute
exactly the remaining sends. -/
theorem c2_datagram_echo_bytes (S : List Nat) (sendOk : Bool)
    (rest : List ConnEvent) (hb : S.all (fun b => decide (b < 256)) = true) :
    (handleConnection (ConnEvent.datagramRecv S sendOk :: rest)).sentDatagrams
      = utf8Encode (strScalars "Server datagram echo: " ++ utf8Lossy S)
        :: (handleConnection rest).sentDatagrams := by
  simp [handleConnection, datagramEchoResponse]

theorem c2_witness :
    (handleConnection (ConnEvent.datagramRecv [112, 105, 110, 103] true :: [])).sentDatagrams
      = utf8Encode (strScalars "Server datagram echo: "
          ++ utf8Lossy [112, 105, 110, 103])
        :: (handleConnection []).sentDatagrams :=
  c2_datagram_echo_bytes [112, 105, 110, 103] true [] (by decide)

/-- C3: the lossy UTF-8 decoding used by the server's stream and datagram
echoes and by the client's receive loops never raises an error: it is a
total function that agrees with strict UTF-8 decoding on every
well-formed payload, produces at least one replacement character U+FFFD
on every ill-formed payload, emits only valid Unicode scalar values, and
in particular decodes the single invalid byte `0xFF` to exactly the
replacement character instead of failing. -/
theorem c3_lossy_decode_never_fails (bs : List Nat) :
    (∀ cs, utf8DecodeStrict bs = some cs → utf8Lossy bs = cs)
    ∧ (utf8DecodeStrict bs = none → replacement ∈ utf8Lossy bs)
    ∧ ((utf8Lossy bs).all
        (fun x => decide (x < 0xd800 ∨ (0xe000 ≤ x ∧ x < 0x110000))) = true)
    ∧ utf8Lossy [0xFF] = [replacement] := by
  refine ⟨lossy_agrees_strict bs, lossy_replacement_of_invalid bs, ?_, ?_⟩
  · rw [List.all_eq_true]
    intro x hx
    exact decide_eq_true (utf8Lossy_valid_scalars bs x hx)
  · simp [utf8Lossy, isUtf8Cont, cont3First, cont4First]

/-- Does the environment make `connect_to_server` fail at one of its four
stages (URL parse, client build, connection, stream open)? -/
def connectFails (env : ConnectEnv) : Bool :=
  !(env.urlOk && env.buildOk && env.connectOk && env.openOk)

/-- C4 counterexample: starting from a state that already stores a
session handle and a send-stream handle, a `connect_to_server` call that
fails (here at URL parsing) returns the error but leaves the previously
stored handles in place — the stored state is not empty afterwards, so a
failed connect does not "leave the stored client connection state empty"
for every initial state. -/
theorem c4_counterexample :
    (connect_to_server ⟨some 7, some 3⟩ ⟨false, true, true, true, 9, 9⟩).result
        = Except.error "Invalid URL"
    ∧ (connect_to_server ⟨some 7, some 3⟩ ⟨false, true, true, true, 9, 9⟩).state.session
        = some 7 :=
  ⟨rfl, rfl⟩

/-- C4 (amended): when `connect_to_server` fails at any stage (URL parse,
client build, connection, or stream open) it returns a descriptive
(non-empty) error and leaves the stored client connection state exactly
unchanged — in particular, started from the empty (disconnected) state
the state stays empty: no session handle and no send-stream handle are
stored. -/
theorem c4_connect_failure_leaves_state (st : ConnectionState) (env : ConnectEnv)
    (h : connectFails env = true) :
    (∃ msg, (connect_to_server st env).result = Except.error msg ∧ msg ≠ "")
    ∧ (connect_to_server st env).state = st := by
  rcases env with ⟨u, b, c, o, sid, stid⟩
  cases u <;> cases b <;> cases c <;> cases o <;>
    first
      | exact ⟨⟨"Invalid URL", rfl, by decide⟩, rfl⟩
      | exact ⟨⟨"Client build error", rfl, by decide⟩, rfl⟩
      | exact ⟨⟨"Connection failed", rfl, by decide⟩, rfl⟩
      | exact ⟨⟨"Failed to open stream", rfl, by decide⟩, rfl⟩
      | (simp [connectFails] at h)

theorem c4_witness :
    (∃ msg, (connect_to_server ⟨none, none⟩ ⟨false, true, true, true, 9, 9⟩).result
        = Except.error msg ∧ msg ≠ "")
    ∧ (connect_to_server ⟨none, none⟩ ⟨false, true, true, true, 9, 9⟩).state
        = ⟨none, none⟩ :=
  c4_connect_failure_leaves_state ⟨none, none⟩ ⟨false, true, true, true, 9, 9⟩
    (by decide)

/-- C5: `disconnect` always leaves both stored handles empty, closes the
session with application code 0 and the fixed reason string exactly when
a session handle was stored, always logs the "Disconnected" system
notice — also when no session existed — and has no error path (its
result type carries no error). -/
theorem c5_disconnect_behavior (st : ConnectionState) :
    (disconnect st).state.session = none
    ∧ (disconnect st).state.send_stream = none
    ∧ (st.session = none → (disconnect st).closed = none)
    ∧ (∀ s, st.session = some s →
        (disconnect st).closed = some (s, 0, "User requested disconnect"))
    ∧ (disconnect st).log = [("Disconnected", "system")] := by
  refine ⟨rfl, rfl, ?_, ?_, rfl⟩
  · intro h; simp [disconnect, h]
  · intro s h; simp [disconnect, h]

theorem c5_witness :
    (disconnect ⟨some 5, some 2⟩).closed = some (5, 0, "User requested disconnect")
    ∧ (disconnect ⟨none, none⟩).closed = none :=
  ⟨(c5_disconnect_behavior ⟨some 5, some 2⟩).2.2.2.1 5 rfl,
    (c5_disconnect_behavior ⟨none, none⟩).2.2.1 rfl⟩

/-- C6: with no send-stream handle stored `send_message_stream` fails
with the "not connected" state error, and with no session handle stored
`send_message_datagram` fails with its "not connected" state error; in
both cases the error is returned to the caller, the message-log path
still runs (the error is displayed as a system message), nothing is sent,
and the stored state is untouched — the failure is not fatal. -/
theorem c6_send_not_connected (st : ConnectionState) (m : String) (ok : Bool) :
    (st.send_stream = none →
      (send_message_stream st m ok).result
          = Except.error "Not connected - no send stream available"
        ∧ (send_message_stream st m ok).log
          = [("Not connected - no send stream available", "system")]
        ∧ (send_message_stream st m ok).state = st
        ∧ (send_message_stream st m ok).wrote = none)
    ∧ (st.session = none →
      (send_message_datagram st m ok).result
          = Except.error "Not connected - no session available"
        ∧ (send_message_datagram st m ok).log
          = [("Not connected - no session available", "system")]
        ∧ (send_message_datagram st m ok).state = st
        ∧ (send_message_datagram st m ok).wrote = none) := by
  constructor <;> intro h <;>
    simp [send_message_stream, send_message_datagram, h]

theorem c6_witness :
    (send_message_stream ⟨none, none⟩ "hi" true).result
        = Except.error "Not connected - no send stream available"
    ∧ (send_message_datagram ⟨none, none⟩ "hi" true).result
        = Except.error "Not connected - no session available" :=
  ⟨((c6_send_not_connected ⟨none, none⟩ "hi" true).1 rfl).1,
    ((c6_send_not_connected ⟨none, none⟩ "hi" true).2 rfl).1⟩

/-- C7: in the connection handler, a failed datagram send only logs a
warning — the loop's status, spawned tasks and later sends are exactly
what they would be otherwise, so the handler never exits because of a
send failure — whereas a failed datagram receive terminates the handler
loop at once. -/
theorem c7_datagram_failure_handling (S : List Nat) (rest : List ConnEvent) :
    (handleConnection (ConnEvent.datagramRecv S false :: rest)).term
        = (handleConnection rest).term
    ∧ "Failed to send datagram"
        ∈ (handleConnection (ConnEvent.datagramRecv S false :: rest)).warns
    ∧ (handleConnection (ConnEvent.datagramRecv S false :: rest)).spawned
        = (handleConnection rest).spawned
    ∧ handleConnection (ConnEvent.datagramRecvFail :: rest)
        = ⟨[], [], ["Error receiving datagram"], HandlerTerm.datagramRecvFailed⟩ := by
  refine ⟨rfl, ?_, rfl, rfl⟩
  simp [handleConnection]

/-- C8: the server's per-stream echo task terminates exactly on
end-of-stream (clean `finished` status, not an error), on a read error,
or on a write error (each logged, never retried); after a successful
non-empty read whose echo write succeeds the loop is still running, and
the loop is still running exactly when every event so far was such a
read. -/
theorem c8_stream_task_termination :
    (∀ rest, streamTaskRun (StreamEvent.eofSignal :: rest)
        = ([], StreamTerm.finished))
    ∧ (∀ rest, streamTaskRun (StreamEvent.readFail :: rest)
        = ([], StreamTerm.readError))
    ∧ (∀ S rest, streamTaskRun (StreamEvent.chunk S false :: rest)
        = ([streamEchoResponse S], StreamTerm.writeError))
    ∧ (∀ S rest, streamTaskRun (StreamEvent.chunk S true :: rest)
        = (streamEchoResponse S :: (streamTaskRun rest).1, (streamTaskRun rest).2))
    ∧ (∀ events, decide ((streamTaskRun events).2 = StreamTerm.running)
        = events.all isOkChunk) := by
  refine ⟨fun rest => rfl, fun rest => rfl, fun S rest => by simp [streamTaskRun],
    fun S rest => by simp [streamTaskRun], ?_⟩
  intro events
  induction events with
  | nil => rfl
  | cons e rest ih =>
    cases e with
    | chunk bs ok => cases ok <;> simp [streamTaskRun, isOkChunk, ih]
    | eofSignal => simp [streamTaskRun, isOkChunk]
    | readFail => simp [streamTaskRun, isOkChunk]

/-- C9: the client state stores at most one session handle and at most
one send-stream handle, and of the four exported operations only connect
and disconnect ever change the stored state: both send operations read it
but leave it exactly as it was. -/
theorem c9_state_handles_invariant :
    (∀ st m ok, clientStep (ClientOp.sendStreamOp m ok) st = st)
    ∧ (∀ st m ok, clientStep (ClientOp.sendDatagramOp m ok) st = st)
    ∧ (∀ st, sessionHandleCount st ≤ 1 ∧ sendStreamHandleCount st ≤ 1) := by
  refine ⟨?_, ?_, ?_⟩
  · intro st m ok
    cases h : st.send_stream <;> cases ok <;>
      simp [clientStep, send_message_stream, h]
  · intro st m ok
    cases h : st.session <;> cases ok <;>
      simp [clientStep, send_message_datagram, h]
  · intro st
    constructor
    · cases h : st.session <;> simp [sessionHandleCount, h]
    · cases h : st.send_stream <;> simp [sendStreamHandleCount, h]

/-- C10: `hex_to_bytes` is total exactly on inputs of even length whose
two-character slices all parse as a base-16 `u8` — on any other input the
Rust function panics (embedded as `none`) — and on a valid input of
length `2*n` it returns exactly `n` bytes, so on the fixed 64-character
pinned certificate fingerprint it returns exactly 32 bytes. -/
theorem c10_hex_to_bytes_length (hex : List Char) :
    (hexValid hex = true →
      ∃ bs, hex_to_bytes hex = some bs ∧ 2 * bs.length = hex.length)
    ∧ (hexValid hex = false → hex_to_bytes hex = none)
    ∧ (∃ bs, hex_to_bytes certHashHex = some bs ∧ bs.length = 32) := by
  refine ⟨hex_to_bytes_total hex, hex_to_bytes_panic hex, ?_⟩
  obtain ⟨bs, hbs, hlen⟩ := hex_to_bytes_total certHashHex (by decide)
  have hcert : certHashHex.length = 64 := by decide
  exact ⟨bs, hbs, by omega⟩

theorem c10_witness :
    ∃ bs, hex_to_bytes ('f' :: 'f' :: '0' :: '0' :: []) = some bs
      ∧ 2 * bs.length = 4 :=
  (c10_hex_to_bytes_length ('f' :: 'f' :: '0' :: '0' :: [])).1 (by decide)

example : streamEchoResponse (strScalars "hello") = strScalars "Server echo: hello" := by
  simp [streamEchoResponse, strScalars, utf8Lossy, utf8Encode, encodeScalar,
    isUtf8Cont, cont3First, cont4First]

example : datagramEchoResponse (strScalars "ping")
    = strScalars "Server datagram echo: ping" := by
  simp [datagramEchoResponse, strScalars, utf8Lossy, utf8Encode, encodeScalar,
    isUtf8Cont, cont3First, cont4First]
